import Mathlib

/-!
Verification of the transaction-orchestration core of the OpenRemit bridge
application.  The definitions below are a shallow embedding of the TypeScript
source: the Zustand store slice (`useStore`), the approval hook
(`useTokenApproval`), the bridge-execution hook (`useBridgeTransaction`),
the `TransactionScreen` handlers and preflight gate, the
`RouteDetailsBottomSheet` handlers and gate, the quote-refresh effect, the
error sanitizer (`errorUtils.ts`) and the two route-provider adapters
(`lifi.ts`, `symbiosis.ts`).  Amounts are `Nat` (token smallest units),
JavaScript `bigint` comparisons carry over directly; nullable values are
`Option`; thrown JS errors are `Except` with an explicit error record.
-/

namespace OpenRemit

/-- Transaction status values of the global store (`src/lib/types.ts`). -/
inductive TxStatus
  | idle | approving | executing | pending | success | error
deriving DecidableEq

/-- Local status values of `RouteDetailsBottomSheet` (its `TxStatus` union). -/
inductive SheetStatus
  | idle | walletApproval | approving | walletExecution | executing | success | error
deriving DecidableEq

/-- The transaction slice of the Zustand store (`useStore`). -/
structure StoreState where
  transactionStatus : TxStatus
  transactionHash : Option String
  transactionError : Option String
  approvalHash : Option String
deriving DecidableEq

/-- Initial store values (`transactionStatus: 'idle'`, hashes and error null). -/
def initialStore : StoreState := ⟨TxStatus.idle, none, none, none⟩

/-- `setTransactionStatus` store action. -/
def setTransactionStatus (s : TxStatus) (st : StoreState) : StoreState :=
  { st with transactionStatus := s }

/-- `setTransactionHash` store action. -/
def setTransactionHash (h : Option String) (st : StoreState) : StoreState :=
  { st with transactionHash := h }

/-- `setTransactionError` store action. -/
def setTransactionError (e : Option String) (st : StoreState) : StoreState :=
  { st with transactionError := e }

/-- `setApprovalHash` store action. -/
def setApprovalHash (h : Option String) (st : StoreState) : StoreState :=
  { st with approvalHash := h }

/-- `resetTransaction` store action: all four fields back to their initial values. -/
def resetTransaction (_ : StoreState) : StoreState := initialStore

/-- A thrown JavaScript error as the handlers observe it: an optional numeric
`code` and a `message` string. -/
structure JsError where
  code : Option Int
  message : String
deriving DecidableEq

/-- Does the character list `l` start with the pattern `p`? -/
def startsWithList : List Char → List Char → Bool
  | _, [] => true
  | [], _ :: _ => false
  | c :: cs, p :: ps => c = p && startsWithList cs ps

/-- Does the pattern occur as a contiguous run inside the list? -/
def infixList : List Char → List Char → Bool
  | [], pat => pat.isEmpty
  | c :: cs, pat => startsWithList (c :: cs) pat || infixList cs pat

/-- JS `s.includes(pat)`. -/
def containsSub (s pat : String) : Bool := infixList s.data pat.data

/-- The zero address literal used throughout the source. -/
def zeroAddress : String := "0x0000000000000000000000000000000000000000"

/-- `getUSDCAddress` from `contracts.ts`: the per-chain USDC token table. -/
def getUSDCAddress (chainId : Nat) : Option String :=
  if chainId = 1 then some "0xA0b86991c6218b36c1d19D4a2e9Eb0cE3606eB48"
  else if chainId = 8453 then some "0x833589fCD6eDb6E08f4c7C32D4f71b54bdA02913"
  else if chainId = 42161 then some "0xaf88d065e77c8cC2239327C5EDb3A432268e5831"
  else if chainId = 10 then some "0x0b2C639c533813f4Aa9D7837CAf62653d097Ff85"
  else none

/-- The chains carrying a USDC address. -/
def supportedChains : List Nat := [1, 8453, 42161, 10]

/-- User-rejection test of the `TransactionScreen` handlers:
`error.code === 4001 || error.message?.includes('User rejected')`. -/
def isUserRejection (e : JsError) : Bool :=
  e.code == some 4001 || containsSub e.message "User rejected"

/-- User-rejection test of the bottom-sheet handlers (same atoms, source order
`error.message?.includes('User rejected') || error.code === 4001`). -/
def sheetIsUserRejection (e : JsError) : Bool :=
  containsSub e.message "User rejected" || e.code == some 4001

/-- Outcome of a wallet write (`writeContractAsync`): a hash, or a thrown error. -/
inductive WalletOutcome
  | ok (hash : String)
  | err (e : JsError)
deriving DecidableEq

/-- Result of running `useTokenApproval.approve`: the store afterwards, the
arguments submitted to the wallet (none when no wallet call was made), and the
returned hash or thrown error. -/
structure ApproveResult where
  store : StoreState
  submittedArgs : Option (String × Nat)
  result : Except JsError String

/-- `useTokenApproval.approve` (part_009 lines 39-78): throw if the USDC
address is unknown; throw a validation error if the spender is missing or the
zero address; otherwise set status `approving`, submit, and on success record
the approval hash, on failure set status `error` and rethrow. -/
def approve (usdcAddress : Option String) (spender : String) (amount : Nat)
    (outcome : WalletOutcome) (st : StoreState) : ApproveResult :=
  match usdcAddress with
  | none => ⟨st, none, Except.error ⟨none, "USDC address not found for this chain"⟩⟩
  | some _ =>
    if spender = "" || spender = zeroAddress then
      ⟨st, none, Except.error ⟨none, "Invalid spender address - cannot approve zero address"⟩⟩
    else
      let st1 := setTransactionStatus TxStatus.approving st
      match outcome with
      | WalletOutcome.ok h => ⟨setApprovalHash (some h) st1, some (spender, amount), Except.ok h⟩
      | WalletOutcome.err e => ⟨setTransactionStatus TxStatus.error st1, some (spender, amount), Except.error e⟩

/-- `const currentAllowance = (allowance as bigint) || BigInt(0)`: an
unresolved (undefined) allowance read is treated as zero. -/
def currentAllowance (allowance : Option Nat) : Nat := allowance.getD 0

/-- `const needsApproval = currentAllowance < amount` (part_009 lines 80-82). -/
def needsApproval (allowance : Option Nat) (amount : Nat) : Bool :=
  currentAllowance allowance < amount

/-- A concrete transaction request (`to`, `data`, optional `value`). -/
structure TxRequest where
  toAddr : String
  callData : String
  value : Option Nat
deriving DecidableEq

/-- The Symbiosis payload attached to a route (`rawSymbiosisData`): the
approval target and a prebuilt transaction request. -/
structure SymbiosisData where
  approveTo : String
  tx : TxRequest
deriving DecidableEq

/-- One step of a Li.Fi execution route. -/
structure LifiStep where
  transactionRequest : Option TxRequest
  approvalAddress : Option String
deriving DecidableEq

/-- A Li.Fi execution route: a list of steps. -/
structure LifiRoute where
  steps : List LifiStep
deriving DecidableEq

/-- An app route as `executeBridge` consumes it: either it carries
`rawSymbiosisData` or it is a Li.Fi route requiring a secondary fetch. -/
structure Route where
  rawSymbiosisData : Option SymbiosisData
deriving DecidableEq

/-- The external collaborators `executeBridge` awaits: the chain-switch
request (its outcome is swallowed by the inner try/catch), the secondary
`getExecutionRoute` fetch for Li.Fi routes, and `sendTransactionAsync`. -/
structure BridgeEnv where
  switchOutcome : Except JsError Unit
  lifiRoute : Except JsError LifiRoute
  sendOutcome : Except JsError String

/-- Result of running `executeBridge`: the store afterwards, whether a
chain-switch request and a send request were issued, and the returned hash or
thrown error. -/
structure BridgeResult where
  store : StoreState
  switchRequested : Bool
  sendRequested : Bool
  result : Except JsError String

/-- The outer catch of `executeBridge`: store the raw message as the
transaction error, set status `error`, rethrow. -/
def bridgeFail (st1 : StoreState) (sendReq : Bool) (e : JsError) : BridgeResult :=
  ⟨setTransactionStatus TxStatus.error (setTransactionError (some e.message) st1),
   true, sendReq, Except.error e⟩

/-- `useBridgeTransaction.executeBridge` (part_011 lines 30-112): set status
`executing` and clear the error, always await `switchChainAsync` (errors
swallowed), then either send the prebuilt Symbiosis transaction or fetch a
Li.Fi route and send its first step; on success record the hash and move to
`pending`; any thrown error is caught, stored verbatim, status set `error`,
and rethrown.  No spender validation occurs anywhere in this flow. -/
def executeBridge (route : Route) (env : BridgeEnv) (st : StoreState) : BridgeResult :=
  let st1 := setTransactionError none (setTransactionStatus TxStatus.executing st)
  match route.rawSymbiosisData with
  | some _ =>
    match env.sendOutcome with
    | Except.ok h =>
      ⟨setTransactionStatus TxStatus.pending (setTransactionHash (some h) st1),
       true, true, Except.ok h⟩
    | Except.error e => bridgeFail st1 true e
  | none =>
    match env.lifiRoute with
    | Except.error e => bridgeFail st1 false e
    | Except.ok r =>
      match r.steps with
      | [] => bridgeFail st1 false ⟨none, "No transaction steps found in route"⟩
      | step :: _ =>
        match step.transactionRequest with
        | none => bridgeFail st1 false ⟨none, "No transaction request found in route step"⟩
        | some _ =>
          match env.sendOutcome with
          | Except.ok h =>
            ⟨setTransactionStatus TxStatus.pending (setTransactionHash (some h) st1),
             true, true, Except.ok h⟩
          | Except.error e => bridgeFail st1 true e

/-- The raw inputs the `TransactionScreen` render reads on one pass. -/
structure ScreenInput where
  currentChainId : Nat
  fromChainId : Nat
  balanceWei : Nat
  ethBalanceWei : Nat
  transferAmountWei : Nat
  isLoadingBalance : Bool
  isLoadingGas : Bool
  isLoadingRoute : Bool
  spenderAddress : String
  selectedRouteSymbiosis : Bool
  lifiRouteLoaded : Bool

/-- `const hasSufficientBalance = balanceWei >= transferAmountWei`. -/
def hasSufficientBalance (i : ScreenInput) : Bool := i.transferAmountWei ≤ i.balanceWei

/-- `const isCorrectNetwork = currentChainId === fromChainId`. -/
def isCorrectNetwork (i : ScreenInput) : Bool := i.currentChainId == i.fromChainId

/-- The conservative gas estimate: `0.005` ether on mainnet, `0.00005` on L2s,
in wei. -/
def estimatedGasWei (fromChainId : Nat) : Nat :=
  if fromChainId = 1 then 5000000000000000 else 50000000000000

/-- `const hasEnoughGas = ethBalanceWei >= estimatedGasWei`. -/
def hasEnoughGas (i : ScreenInput) : Bool :=
  estimatedGasWei i.fromChainId ≤ i.ethBalanceWei

/-- `const hasValidSpender = spenderAddress && spenderAddress !== '0x0…0'`. -/
def hasValidSpender (i : ScreenInput) : Bool :=
  !(i.spenderAddress = "") && !(i.spenderAddress = zeroAddress)

/-- `const hasRouteData = selectedRoute?.rawSymbiosisData || lifiRoute !== null`. -/
def hasRouteData (i : ScreenInput) : Bool :=
  i.selectedRouteSymbiosis || i.lifiRouteLoaded

/-- The `TransactionScreen` preflight gate (part_014 line 110), conjunct
order as in the source. -/
def preflightPassed (i : ScreenInput) : Bool :=
  hasSufficientBalance i && isCorrectNetwork i && !i.isLoadingBalance &&
  !i.isLoadingGas && hasRouteData i && !i.isLoadingRoute && hasEnoughGas i &&
  hasValidSpender i

/-- The spec's PreflightResult, stated from its words: correct network,
sufficient token balance, sufficient gas balance, valid route with valid
spender, not currently loading. -/
def screenSpecGate (i : ScreenInput) : Bool :=
  isCorrectNetwork i && hasSufficientBalance i && hasEnoughGas i &&
  (hasRouteData i && hasValidSpender i) &&
  !(i.isLoadingBalance || i.isLoadingGas || i.isLoadingRoute)

/-- The approval card (and its button) renders only under
`preflightPassed && needsApproval && !isApproved` (part_014 line 370). -/
def approvalControlShown (i : ScreenInput) (needsApp isApproved : Bool) : Bool :=
  preflightPassed i && needsApp && !isApproved

/-- The execute card (and its button) renders only under
`preflightPassed && (!needsApproval || isApproved) && transactionStatus === 'idle'`
(part_014 line 420). -/
def executeControlShown (i : ScreenInput) (needsApp isApproved : Bool)
    (status : TxStatus) : Bool :=
  preflightPassed i && (!needsApp || isApproved) && (status == TxStatus.idle)

/-- Result of the network-switch guard opening `handleApprove` and
`handleExecute` (part_014 lines 184-206 and 234-258): whether a wallet switch
request was issued, whether the handler proceeds to its step, and the store
afterwards. -/
structure GuardResult where
  switchRequested : Bool
  proceed : Bool
  store : StoreState

/-- The guard itself: nothing happens when the active chain already equals the
required chain; otherwise a switch is requested, a user-rejected switch
returns silently, any other switch failure sets status `error` and returns. -/
def networkGuard (currentChainId fromChainId : Nat)
    (switchOutcome : Except JsError Unit) (st : StoreState) : GuardResult :=
  if currentChainId ≠ fromChainId then
    match switchOutcome with
    | Except.ok _ => ⟨true, true, st⟩
    | Except.error e =>
      if isUserRejection e then ⟨true, false, st⟩
      else ⟨true, false, setTransactionStatus TxStatus.error st⟩
  else ⟨false, true, st⟩

/-- Everything `handleApprove` consults. -/
structure ApproveEnv where
  currentChainId : Nat
  fromChainId : Nat
  switchOutcome : Except JsError Unit
  usdcAddress : Option String
  spender : String
  amount : Nat
  walletOutcome : WalletOutcome

/-- Step 2 of `handleApprove` (part_014 lines 208-230): run `approve()`; on a
thrown error, a user rejection resets status to `idle`, an RPC error
(`-32603`) and any other error set status `error`. -/
def approveStep (env : ApproveEnv) (st : StoreState) : StoreState :=
  let r := approve env.usdcAddress env.spender env.amount env.walletOutcome st
  match r.result with
  | Except.ok _ => r.store
  | Except.error e =>
    if isUserRejection e then setTransactionStatus TxStatus.idle r.store
    else if e.code == some (-32603) then setTransactionStatus TxStatus.error r.store
    else setTransactionStatus TxStatus.error r.store

/-- `handleApprove` (part_014 lines 184-231): network guard, then the
approval step. -/
def handleApproveScreen (env : ApproveEnv) (st : StoreState) : StoreState :=
  let g := networkGuard env.currentChainId env.fromChainId env.switchOutcome st
  if g.proceed then approveStep env g.store else g.store

/-- Everything `handleExecute` consults. -/
structure ExecEnv where
  hasAddress : Bool
  hasSelectedRoute : Bool
  currentChainId : Nat
  fromChainId : Nat
  switchOutcome : Except JsError Unit
  route : Route
  bridgeEnv : BridgeEnv

/-- Step 2 of `handleExecute` (part_014 lines 260-291): run `executeBridge`;
on a thrown error, a user rejection resets status to `idle`, an expired quote,
an RPC error and any other error set status `error`. -/
def executeStep (env : ExecEnv) (st : StoreState) : StoreState :=
  let r := executeBridge env.route env.bridgeEnv st
  match r.result with
  | Except.ok _ => r.store
  | Except.error e =>
    if isUserRejection e then setTransactionStatus TxStatus.idle r.store
    else if containsSub e.message "expired" || containsSub e.message "Request expired" then
      setTransactionStatus TxStatus.error r.store
    else if e.code == some (-32603) then setTransactionStatus TxStatus.error r.store
    else setTransactionStatus TxStatus.error r.store

/-- `handleExecute` (part_014 lines 234-291): early return without address or
selected route, then network guard, then the bridge step. -/
def handleExecuteScreen (env : ExecEnv) (st : StoreState) : StoreState :=
  if !(env.hasAddress && env.hasSelectedRoute) then st
  else
    let g := networkGuard env.currentChainId env.fromChainId env.switchOutcome st
    if g.proceed then executeStep env g.store else g.store

/-- The `TransactionStatus` card renders only when the status is not `idle`,
and shows its error banner text exactly when the status is `error`
(part_014 line 455, TransactionStatus.tsx):
`{error || 'An error occurred during the transaction'}`. -/
def errorBannerText (st : StoreState) : Option String :=
  if st.transactionStatus = TxStatus.error then
    some (st.transactionError.getD "An error occurred during the transaction")
  else none

/-- Local state of `RouteDetailsBottomSheet`. -/
structure SheetState where
  txStatus : SheetStatus
  errorMessage : Option String
  successTxHash : Option String
  hasCompletedApproval : Bool
deriving DecidableEq

/-- The sheet's initial local state. -/
def initialSheet : SheetState := ⟨SheetStatus.idle, none, none, false⟩

/-- The bottom sheet's `handleApprove` (part_001 lines 124-159): enter
`wallet-approval` and clear the message, run `approve()`; on success pass
through `approving` and, after the 3s timeout refetches the allowance, record
the completed approval and return to `idle`; a user rejection returns to
`idle` with no message; any other error maps to one of two fixed messages and
status `error`. -/
def sheetHandleApprove (usdc : Option String) (spender : String) (amount : Nat)
    (outcome : WalletOutcome) (s : SheetState) (st : StoreState) :
    SheetState × StoreState :=
  let s1 : SheetState := { s with txStatus := SheetStatus.walletApproval, errorMessage := none }
  let r := approve usdc spender amount outcome st
  match r.result with
  | Except.ok _ =>
    ({ s1 with txStatus := SheetStatus.idle, hasCompletedApproval := true }, r.store)
  | Except.error e =>
    if sheetIsUserRejection e then ({ s1 with txStatus := SheetStatus.idle }, r.store)
    else
      let msg := if containsSub e.message "insufficient funds"
        then "Not enough ETH for gas fees" else "Approval failed. Please try again."
      ({ s1 with txStatus := SheetStatus.error, errorMessage := some msg }, r.store)

/-- The bottom sheet's `handleExecute` (part_001 lines 162-210): early return
without route or address; enter `wallet-execution` and clear the message, run
`executeBridge`; on success pass through `executing` and, after the 2s
timeout, show `success` with the returned hash; a user rejection returns to
`idle` with no message; any other error maps to one of two fixed messages and
status `error`. -/
def sheetHandleExecute (hasRoute hasAddress : Bool) (route : Route)
    (benv : BridgeEnv) (s : SheetState) (st : StoreState) :
    SheetState × StoreState :=
  if !(hasRoute && hasAddress) then (s, st)
  else
    let s1 : SheetState := { s with txStatus := SheetStatus.walletExecution, errorMessage := none }
    let r := executeBridge route benv st
    match r.result with
    | Except.ok h =>
      ({ s1 with txStatus := SheetStatus.success, successTxHash := some h }, r.store)
    | Except.error e =>
      if sheetIsUserRejection e then ({ s1 with txStatus := SheetStatus.idle }, r.store)
      else
        let msg := if containsSub e.message "insufficient funds"
          then "Not enough ETH for gas fees" else "Transaction failed. Please try again."
        ({ s1 with txStatus := SheetStatus.error, errorMessage := some msg }, r.store)

/-- The raw inputs the bottom sheet's preflight reads.  `isLoadingBalance` is
exposed by `useTokenBalance` but the sheet never consults it. -/
structure SheetInput where
  currentChainId : Nat
  fromChainId : Nat
  usdcBalanceWei : Nat
  ethBalanceWei : Nat
  transferAmountWei : Nat
  spenderAddress : Option String
  isLoadingBalance : Bool

/-- `const hasSufficientUSDC = usdcBalanceWei >= transferAmountWei`. -/
def sheetHasSufficientUSDC (i : SheetInput) : Bool :=
  i.transferAmountWei ≤ i.usdcBalanceWei

/-- `const hasSufficientGas = ethBalanceWei >= estimatedGasWei`. -/
def sheetHasSufficientGas (i : SheetInput) : Bool :=
  estimatedGasWei i.fromChainId ≤ i.ethBalanceWei

/-- `const isCorrectNetwork = currentChainId === fromChainId`. -/
def sheetIsCorrectNetwork (i : SheetInput) : Bool :=
  i.currentChainId == i.fromChainId

/-- `const hasValidSpender = spenderAddress && spenderAddress !== '0x0…0'`,
where `spenderAddress` is `string | null`. -/
def sheetHasValidSpender (i : SheetInput) : Bool :=
  match i.spenderAddress with
  | none => false
  | some s => !(s = "") && !(s = zeroAddress)

/-- The bottom sheet's preflight gate (part_001 lines 120-121): balance, gas,
network and spender only — it consults no loading flag. -/
def sheetPreflightPassed (i : SheetInput) : Bool :=
  sheetHasSufficientUSDC i && sheetHasSufficientGas i &&
  sheetIsCorrectNetwork i && sheetHasValidSpender i

/-- The spec's PreflightResult conjunction, stated from its words for the
sheet's inputs: correct network, sufficient token balance, sufficient gas,
valid spender, and not currently loading. -/
def sheetSpecGate (i : SheetInput) : Bool :=
  sheetIsCorrectNetwork i && sheetHasSufficientUSDC i &&
  sheetHasSufficientGas i && sheetHasValidSpender i && !i.isLoadingBalance

/-- What the sheet's single action button does when pressed. -/
inductive SheetAction
  | noneAct | approveAct | executeAct
deriving DecidableEq

/-- `getButtonState` (part_001 lines 237-284): disabled without an address or
while the gate fails or while any transaction sub-state is active; otherwise
the button triggers the approval when one is still needed, else the
execution. -/
def sheetButtonAction (hasAddress : Bool) (i : SheetInput) (status : SheetStatus)
    (needsApp isApproved hasCompleted : Bool) : SheetAction :=
  if !hasAddress then SheetAction.noneAct
  else if !(sheetPreflightPassed i) then SheetAction.noneAct
  else
    match status with
    | SheetStatus.walletApproval => SheetAction.noneAct
    | SheetStatus.approving => SheetAction.noneAct
    | SheetStatus.walletExecution => SheetAction.noneAct
    | SheetStatus.executing => SheetAction.noneAct
    | SheetStatus.success => SheetAction.noneAct
    | _ =>
      if needsApp && !isApproved && !hasCompleted then SheetAction.approveAct
      else SheetAction.executeAct

/-- The quote-refresh effect (part_014 lines 170-181): no interval is
installed unless the status is `idle`; in `idle` an interval of 30000 ms is
installed. -/
def quoteRefreshTimer (status : TxStatus) : Option Nat :=
  if status ≠ TxStatus.idle then none else some 30000

/-- One timer period: when the interval exists its callback bumps
`quoteRefreshKey` (`setQuoteRefreshKey(prev => prev + 1)`), otherwise the key
is untouched. -/
def refreshTick (status : TxStatus) (quoteRefreshKey : Nat) : Nat :=
  match quoteRefreshTimer status with
  | none => quoteRefreshKey
  | some _ => quoteRefreshKey + 1

/-- The route-fetch effect re-runs exactly when one of its dependencies
changed; holding the others fixed, that is a change of `quoteRefreshKey`. -/
def fetchRouteEffectRuns (oldKey newKey : Nat) : Bool := !(oldKey == newKey)

/-- The body of the route-fetch effect fetches unless
`!address || !userInput || !selectedRoute` (part_014 line 121). -/
def fetchRouteFetches (hasAddress hasUserInput hasSelectedRoute : Bool) : Bool :=
  hasAddress && hasUserInput && hasSelectedRoute

/-- `sanitizeErrorMessage` (`errorUtils.ts` lines 5-47), the taxonomy mapping:
cancellation, insufficient funds, network/RPC, expired quote, revert, generic
fallback. -/
def sanitizeErrorMessage (e : JsError) : String :=
  let m := e.message.toLower
  if e.code == some 4001 || containsSub m "user rejected" || containsSub m "user denied" then
    "Transaction cancelled"
  else if containsSub m "insufficient funds" || containsSub m "insufficient balance" then
    "Insufficient funds for gas fees"
  else if e.code == some (-32603) || containsSub m "rpc" || containsSub m "network" ||
      containsSub m "provider" then
    "Network busy, please try again"
  else if containsSub m "request expired" then
    "Quote expired, please try again"
  else if containsSub m "revert" then
    "Transaction failed, please check your balance and try again"
  else "Something went wrong, please try again"

/-- The six sanitized user-facing strings of the taxonomy. -/
def taxonomyMessages : List String :=
  ["Transaction cancelled",
   "Insufficient funds for gas fees",
   "Network busy, please try again",
   "Quote expired, please try again",
   "Transaction failed, please check your balance and try again",
   "Something went wrong, please try again"]

/-- Error kinds a quote adapter can produce: a locally raised not-supported
validation error, a provider-side failure, or the empty-result error. -/
inductive QuoteError
  | notSupported (msg : String)
  | providerError (msg : String)
  | noRoutes
deriving DecidableEq

/-- Outcome of a quote adapter call: whether the external provider was called
at all, and the result. -/
structure QuoteOutcome (α : Type) where
  providerCalled : Bool
  result : Except QuoteError α

/-- `getLiFiQuote` / `getExecutionRoute` (`lifi.ts`): reject a TON destination
and chains without a USDC address before calling `getRoutes`; a provider throw
propagates; an empty result raises the no-routes error. -/
def getLiFiQuote (fromChainId toChainId : Nat)
    (provider : Except String (List LifiRoute)) : QuoteOutcome (List LifiRoute) :=
  if toChainId = 607 then
    ⟨false, Except.error (QuoteError.notSupported
      "TON bridging is coming soon! Li.Fi currently only supports EVM chains. For now, please select an EVM destination chain (Base, Optimism, Arbitrum, or Ethereum).")⟩
  else
    match getUSDCAddress fromChainId with
    | none =>
      ⟨false, Except.error (QuoteError.notSupported
        ("USDC not supported on source chain " ++ toString fromChainId ++
         ". Supported chains: Base, Optimism, Arbitrum, Ethereum."))⟩
    | some _ =>
      match getUSDCAddress toChainId with
      | none =>
        ⟨false, Except.error (QuoteError.notSupported
          ("USDC not supported on destination chain " ++ toString toChainId ++
           ". Supported chains: Base, Optimism, Arbitrum, Ethereum."))⟩
      | some _ =>
        match provider with
        | Except.error m => ⟨true, Except.error (QuoteError.providerError m)⟩
        | Except.ok [] => ⟨true, Except.error QuoteError.noRoutes⟩
        | Except.ok rs => ⟨true, Except.ok rs⟩

/-- `getSymbiosisQuote` (`symbiosis.ts` lines 81-152): only Base (8453) to
TON (607) with an `EQ`/`UQ` recipient is accepted, all checked before the
HTTP call; a non-ok response raises the provider error. -/
def getSymbiosisQuote (fromChainId toChainId : Nat) (toAddress : String)
    (provider : Except String Unit) : QuoteOutcome Unit :=
  if fromChainId ≠ 8453 then
    ⟨false, Except.error (QuoteError.notSupported
      "Source chain must be Base (8453) for Symbiosis bridging")⟩
  else if toChainId ≠ 607 then
    ⟨false, Except.error (QuoteError.notSupported "Destination chain must be TON (607)")⟩
  else if !(startsWithList toAddress.data "EQ".data ||
            startsWithList toAddress.data "UQ".data) then
    ⟨false, Except.error (QuoteError.notSupported
      "Invalid TON address. Must start with EQ or UQ")⟩
  else
    match provider with
    | Except.error m =>
      ⟨true, Except.error (QuoteError.providerError ("Symbiosis API error: " ++ m))⟩
    | Except.ok r => ⟨true, Except.ok r⟩

/-- C4: for every pair (allowance, requiredAmount), `needsApproval` is true
iff allowance < requiredAmount; consequently, once an approval for at least
requiredAmount lands and the allowance is re-read (yielding a value of at
least requiredAmount), `needsApproval` is false. -/
theorem c4_needs_approval_iff :
    ∀ (allowance requiredAmount : Nat),
      (needsApproval (some allowance) requiredAmount = true ↔
        allowance < requiredAmount) ∧
      (∀ newAllowance : Nat, requiredAmount ≤ newAllowance →
        needsApproval (some newAllowance) requiredAmount = false) := by
  intro a r
  refine ⟨?_, ?_⟩
  · simp [needsApproval, currentAllowance]
  · intro a' h
    simp [needsApproval, currentAllowance]
    omega

/-- Witness for C4 at allowance 3, requiredAmount 7 and re-read allowance 7. -/
theorem c4_needs_approval_iff_witness :
    needsApproval (some 3) 7 = true ∧ needsApproval (some 7) 7 = false :=
  ⟨(c4_needs_approval_iff 3 7).1.mpr (by decide),
   (c4_needs_approval_iff 3 7).2 7 (by decide)⟩

/-- C10: while the allowance read has not resolved (`allowance` undefined),
`useTokenApproval` treats the allowance as zero, so every positive required
amount yields `needsApproval = true` even though the true allowance is
unknown. -/
theorem c10_pending_allowance_forces_approval :
    ∀ requiredAmount : Nat, 0 < requiredAmount →
      needsApproval none requiredAmount = true := by
  intro r h
  simpa [needsApproval, currentAllowance] using h

/-- Witness for C10 at requiredAmount 5. -/
theorem c10_pending_allowance_forces_approval_witness :
    needsApproval none 5 = true :=
  c10_pending_allowance_forces_approval 5 (by decide)

/-- C6: the 30-second quote-refresh interval exists only while the status is
`idle` — in every other status no timer is installed, the refresh key never
advances and the route-fetch effect is not re-triggered by it; in `idle` the
interval is exactly 30000 ms, each tick advances the key and thereby re-runs
the route-fetch effect (which fetches whenever address, user input and
selected route are present). -/
theorem c6_quote_refresh_only_when_idle :
    ∀ (s : TxStatus) (k : Nat),
      (s ≠ TxStatus.idle →
        quoteRefreshTimer s = none ∧ refreshTick s k = k ∧
        fetchRouteEffectRuns k (refreshTick s k) = false) ∧
      (quoteRefreshTimer TxStatus.idle = some 30000 ∧
        refreshTick TxStatus.idle k = k + 1 ∧
        fetchRouteEffectRuns k (refreshTick TxStatus.idle k) = true ∧
        fetchRouteFetches true true true = true) := by
  intro s k
  refine ⟨?_, ?_, ?_, ?_, ?_⟩
  · intro h
    simp [quoteRefreshTimer, refreshTick, fetchRouteEffectRuns, h]
  · simp [quoteRefreshTimer]
  · simp [refreshTick, quoteRefreshTimer]
  · simp [refreshTick, quoteRefreshTimer, fetchRouteEffectRuns]
  · rfl

/-- Witness for C6 in status `pending` with key 0. -/
theorem c6_quote_refresh_only_when_idle_witness :
    quoteRefreshTimer TxStatus.pending = none ∧
    refreshTick TxStatus.pending 0 = 0 ∧
    fetchRouteEffectRuns 0 (refreshTick TxStatus.pending 0) = false :=
  (c6_quote_refresh_only_when_idle TxStatus.pending 0).1 (by decide)

/-- A sample prebuilt Symbiosis transaction request. -/
def sampleTx : TxRequest := ⟨"0xBridgeRouterContract", "0xdeadbeef", some 0⟩

/-- Concrete screen inputs on Base with ample balances, a loaded Symbiosis
route and a valid spender: every preflight conjunct holds. -/
def goodScreenInput : ScreenInput :=
  ⟨8453, 8453, 1000000000, 1000000000000000000, 500000000, false, false, false,
   "0x41Ae964d0F61Bb5F5e253141A462aD6F3b625B92", true, false⟩

/-- A route whose Symbiosis approval target is the zero address. -/
def zeroSpenderRoute : Route := ⟨some ⟨zeroAddress, sampleTx⟩⟩

/-- A route with the real Symbiosis metaRouterGateway as approval target. -/
def sampleSymbRoute : Route :=
  ⟨some ⟨"0x41Ae964d0F61Bb5F5e253141A462aD6F3b625B92", sampleTx⟩⟩

/-- A bridge environment whose wallet submission succeeds. -/
def benvOk : BridgeEnv :=
  ⟨Except.ok (), Except.error ⟨none, "unused"⟩, Except.ok "0xhash1"⟩

/-- A bridge environment whose wallet submission is rejected by the user. -/
def benvRejected : BridgeEnv :=
  ⟨Except.ok (), Except.error ⟨none, "unused"⟩,
   Except.error ⟨some 4001, "User rejected the request."⟩⟩

/-- Characterisation of `executeBridge`: either the send succeeded and the
hash was recorded with status `pending`, or some error was caught by
`bridgeFail`. -/
theorem executeBridge_spec (route : Route) (env : BridgeEnv) (st : StoreState) :
    (∃ h, env.sendOutcome = Except.ok h ∧
      executeBridge route env st =
        ⟨setTransactionStatus TxStatus.pending (setTransactionHash (some h)
           (setTransactionError none (setTransactionStatus TxStatus.executing st))),
         true, true, Except.ok h⟩) ∨
    (∃ e sr, executeBridge route env st =
        bridgeFail (setTransactionError none (setTransactionStatus TxStatus.executing st)) sr e) := by
  obtain ⟨rsd⟩ := route
  obtain ⟨bsw, blr, bso⟩ := env
  cases rsd with
  | some sd =>
    cases bso with
    | ok h => exact Or.inl ⟨h, rfl, rfl⟩
    | error e => exact Or.inr ⟨e, true, rfl⟩
  | none =>
    cases blr with
    | error e => exact Or.inr ⟨e, false, rfl⟩
    | ok r =>
      obtain ⟨steps⟩ := r
      cases steps with
      | nil => exact Or.inr ⟨⟨none, "No transaction steps found in route"⟩, false, rfl⟩
      | cons s rest =>
        obtain ⟨treq, appr⟩ := s
        cases treq with
        | none => exact Or.inr ⟨⟨none, "No transaction request found in route step"⟩, false, rfl⟩
        | some t =>
          cases bso with
          | ok h => exact Or.inl ⟨h, rfl, rfl⟩
          | error e => exact Or.inr ⟨e, true, rfl⟩

/-- Characterisation of the network guard: when it proceeds it has not touched
the store; when it blocks, the store is either untouched (rejected switch) or
has only its status set to `error`. -/
theorem networkGuard_cases (cc fc : Nat) (swo : Except JsError Unit) (st : StoreState) :
    ((networkGuard cc fc swo st).proceed = true ∧
      (networkGuard cc fc swo st).store = st) ∨
    ((networkGuard cc fc swo st).proceed = false ∧
      ((networkGuard cc fc swo st).store = st ∨
       (networkGuard cc fc swo st).store = setTransactionStatus TxStatus.error st)) := by
  by_cases hcc : cc = fc
  · left
    constructor <;> simp [networkGuard, hcc]
  · cases swo with
    | ok u => left; constructor <;> simp [networkGuard, hcc]
    | error e =>
      by_cases hrej : isUserRejection e = true
      · right
        refine ⟨?_, Or.inl ?_⟩ <;> simp [networkGuard, hcc, hrej]
      · rw [Bool.not_eq_true] at hrej
        right
        refine ⟨?_, Or.inr ?_⟩ <;> simp [networkGuard, hcc, hrej]

/-- `handleExecute` ends in one of three ways: untouched store (early return
or rejected switch), status set to `error` (failed switch), or the bridge
step run on the untouched store. -/
theorem handleExecuteScreen_cases (env : ExecEnv) (st : StoreState) :
    handleExecuteScreen env st = st ∨
    handleExecuteScreen env st = setTransactionStatus TxStatus.error st ∨
    handleExecuteScreen env st = executeStep env st := by
  by_cases hgo : (env.hasAddress && env.hasSelectedRoute) = true
  · rcases networkGuard_cases env.currentChainId env.fromChainId env.switchOutcome st with
      ⟨hp, hs⟩ | ⟨hp, hs | hs⟩
    · right; right
      simp [handleExecuteScreen, hgo, hp, hs]
    · left
      simp [handleExecuteScreen, hgo, hp, hs]
    · right; left
      simp [handleExecuteScreen, hgo, hp, hs]
  · left
    rw [Bool.not_eq_true] at hgo
    simp [handleExecuteScreen, hgo]

/-- `handleApprove` ends in one of three ways: untouched store (rejected
switch), status set to `error` (failed switch), or the approval step run on
the untouched store. -/
theorem handleApproveScreen_cases (env : ApproveEnv) (st : StoreState) :
    handleApproveScreen env st = st ∨
    handleApproveScreen env st = setTransactionStatus TxStatus.error st ∨
    handleApproveScreen env st = approveStep env st := by
  rcases networkGuard_cases env.currentChainId env.fromChainId env.switchOutcome st with
    ⟨hp, hs⟩ | ⟨hp, hs | hs⟩
  · right; right
    simp [handleApproveScreen, hp, hs]
  · left
    simp [handleApproveScreen, hp, hs]
  · right; left
    simp [handleApproveScreen, hp, hs]

/-- Characterisation of the approval step: either the wallet call succeeded
and exactly the approval hash (besides the `approving` status) was recorded,
or the store ends as one of the failure shapes, none of which touches the
error, hash or approval-hash fields. -/
theorem approveStep_spec (env : ApproveEnv) (st : StoreState) :
    (∃ h, env.walletOutcome = WalletOutcome.ok h ∧
      approveStep env st =
        setApprovalHash (some h) (setTransactionStatus TxStatus.approving st)) ∨
    (∃ s0, (s0 = st ∨ s0 = setTransactionStatus TxStatus.error
        (setTransactionStatus TxStatus.approving st)) ∧
      (approveStep env st = setTransactionStatus TxStatus.idle s0 ∨
       approveStep env st = setTransactionStatus TxStatus.error s0)) := by
  cases husdc : env.usdcAddress with
  | none =>
    right
    refine ⟨st, Or.inl rfl, ?_⟩
    by_cases hrej : isUserRejection ⟨none, "USDC address not found for this chain"⟩ = true
    · left
      simp [approveStep, approve, husdc, hrej]
    · right
      rw [Bool.not_eq_true] at hrej
      simp [approveStep, approve, husdc, hrej]
  | some u =>
    by_cases hsp : (decide (env.spender = "") || decide (env.spender = zeroAddress)) = true
    · right
      refine ⟨st, Or.inl rfl, ?_⟩
      by_cases hrej :
          isUserRejection ⟨none, "Invalid spender address - cannot approve zero address"⟩ = true
      · left
        simp [approveStep, approve, husdc, hsp, hrej]
      · right
        rw [Bool.not_eq_true] at hrej
        simp [approveStep, approve, husdc, hsp, hrej]
    · rw [Bool.not_eq_true] at hsp
      cases hwo : env.walletOutcome with
      | ok h =>
        left
        exact ⟨h, rfl, by simp [approveStep, approve, husdc, hsp, hwo]⟩
      | err e =>
        right
        refine ⟨setTransactionStatus TxStatus.error
          (setTransactionStatus TxStatus.approving st), Or.inr rfl, ?_⟩
        by_cases hrej : isUserRejection e = true
        · left
          simp [approveStep, approve, husdc, hsp, hwo, hrej]
        · right
          rw [Bool.not_eq_true] at hrej
          simp [approveStep, approve, husdc, hsp, hwo, hrej]

/-- C1 counterexample: `executeBridge` on a route whose approval target is the
zero address does not refuse — it issues the network call and the wallet
submission and succeeds, with no validation error. -/
theorem c1_counterexample :
    (executeBridge zeroSpenderRoute benvOk initialStore).sendRequested = true ∧
    (executeBridge zeroSpenderRoute benvOk initialStore).switchRequested = true ∧
    (executeBridge zeroSpenderRoute benvOk initialStore).result = Except.ok "0xhash1" :=
  ⟨rfl, rfl, rfl⟩

/-- C1 (amended): `approve()` refuses a missing or zero spender with a
validation error before any wallet submission, regardless of the amount,
leaving the store untouched; `executeBridge` performs no spender validation
itself — execution with an invalid spender is prevented only by the preflight
gate, under which neither the approval nor the execution control is reachable
unless `hasValidSpender` holds. -/
theorem c1_spender_validation :
    (∀ (usdc : Option String) (spender : String) (amount : Nat)
        (o : WalletOutcome) (st : StoreState),
      spender = "" ∨ spender = zeroAddress →
        (approve usdc spender amount o st).submittedArgs = none ∧
        (approve usdc spender amount o st).store = st ∧
        ∃ m, (approve usdc spender amount o st).result = Except.error ⟨none, m⟩) ∧
    (∀ (i : ScreenInput) (na ia : Bool),
        approvalControlShown i na ia = true → hasValidSpender i = true) ∧
    (∀ (i : ScreenInput) (na ia : Bool) (s : TxStatus),
        executeControlShown i na ia s = true → hasValidSpender i = true) := by
  refine ⟨?_, ?_, ?_⟩
  · intro usdc spender amount o st hsp
    cases usdc with
    | none => exact ⟨rfl, rfl, "USDC address not found for this chain", rfl⟩
    | some u =>
      have hcond : (decide (spender = "") || decide (spender = zeroAddress)) = true := by
        rcases hsp with h | h <;> simp [h]
      refine ⟨?_, ?_, "Invalid spender address - cannot approve zero address", ?_⟩ <;>
        simp [approve, hcond]
  · intro i na ia h
    simp only [approvalControlShown, preflightPassed, Bool.and_eq_true] at h
    exact h.1.1.2
  · intro i na ia s h
    simp only [executeControlShown, preflightPassed, Bool.and_eq_true] at h
    exact h.1.1.2

/-- Witness for C1 (amended): a zero spender is refused before submission,
and a concrete input with the approval control shown has a valid spender. -/
theorem c1_spender_validation_witness :
    (approve (some "0x833589fCD6eDb6E08f4c7C32D4f71b54bdA02913") zeroAddress
      500000000 (WalletOutcome.ok "0xh") initialStore).submittedArgs = none ∧
    hasValidSpender goodScreenInput = true :=
  ⟨(c1_spender_validation.1 (some "0x833589fCD6eDb6E08f4c7C32D4f71b54bdA02913")
      zeroAddress 500000000 (WalletOutcome.ok "0xh") initialStore (Or.inr rfl)).1,
   c1_spender_validation.2.1 goodScreenInput true false (by decide)⟩

/-- C2: every error raised during the approving or executing step that is
classified as a user rejection (code 4001 or a message containing 'User
rejected') leaves the orchestration's final status at `idle`, never `error`,
and no error banner is shown for it: in `TransactionScreen` the store status
ends `idle` and the banner text is `none`; in the bottom sheet the local
status ends `idle` and its error message stays cleared. -/
theorem c2_user_rejection_ends_idle :
    (∀ (env : ApproveEnv) (st : StoreState) (e : JsError),
      (approve env.usdcAddress env.spender env.amount env.walletOutcome st).result =
        Except.error e →
      isUserRejection e = true →
      (approveStep env st).transactionStatus = TxStatus.idle ∧
      errorBannerText (approveStep env st) = none) ∧
    (∀ (env : ExecEnv) (st : StoreState) (e : JsError),
      (executeBridge env.route env.bridgeEnv st).result = Except.error e →
      isUserRejection e = true →
      (executeStep env st).transactionStatus = TxStatus.idle ∧
      errorBannerText (executeStep env st) = none) ∧
    (∀ (usdc : Option String) (spender : String) (amount : Nat) (o : WalletOutcome)
        (s : SheetState) (st : StoreState) (e : JsError),
      (approve usdc spender amount o st).result = Except.error e →
      sheetIsUserRejection e = true →
      (sheetHandleApprove usdc spender amount o s st).1.txStatus = SheetStatus.idle ∧
      (sheetHandleApprove usdc spender amount o s st).1.errorMessage = none) ∧
    (∀ (route : Route) (benv : BridgeEnv) (s : SheetState) (st : StoreState) (e : JsError),
      (executeBridge route benv st).result = Except.error e →
      sheetIsUserRejection e = true →
      (sheetHandleExecute true true route benv s st).1.txStatus = SheetStatus.idle ∧
      (sheetHandleExecute true true route benv s st).1.errorMessage = none) := by
  refine ⟨?_, ?_, ?_, ?_⟩
  · intro env st e heq hrej
    simp [approveStep, heq, hrej, errorBannerText, setTransactionStatus]
  · intro env st e heq hrej
    simp [executeStep, heq, hrej, errorBannerText, setTransactionStatus]
  · intro usdc spender amount o s st e heq hrej
    simp [sheetHandleApprove, heq, hrej]
  · intro route benv s st e heq hrej
    simp [sheetHandleExecute, heq, hrej]

/-- Witness for C2: a concrete user-rejected execution ends with store status
`idle` and no banner. -/
theorem c2_user_rejection_ends_idle_witness :
    (executeStep ⟨true, true, 8453, 8453, Except.ok (), sampleSymbRoute, benvRejected⟩
        initialStore).transactionStatus = TxStatus.idle ∧
    errorBannerText (executeStep ⟨true, true, 8453, 8453, Except.ok (),
        sampleSymbRoute, benvRejected⟩ initialStore) = none :=
  c2_user_rejection_ends_idle.2.1
    ⟨true, true, 8453, 8453, Except.ok (), sampleSymbRoute, benvRejected⟩
    initialStore ⟨some 4001, "User rejected the request."⟩ rfl (by decide)

/-- C3 counterexample: starting from the initial store, a user-rejected bridge
execution through `handleExecute` ends with status `idle` while the last-error
field — written verbatim by the `executeBridge` catch — is still non-null,
violating the claimed invariant that error is non-null only in status
`error`. -/
theorem c3_counterexample :
    (handleExecuteScreen ⟨true, true, 8453, 8453, Except.ok (), sampleSymbRoute,
        benvRejected⟩ initialStore).transactionStatus = TxStatus.idle ∧
    (handleExecuteScreen ⟨true, true, 8453, 8453, Except.ok (), sampleSymbRoute,
        benvRejected⟩ initialStore).transactionError =
      some "User rejected the request." :=
  ⟨rfl, rfl⟩

/-- C3 (amended): the hash discipline holds as claimed — the transaction hash
changes only to a hash the submission call returned successfully, and the
approval hash only to a hash the approval submission returned — and the
last-error field is non-null only when the status is `error`, except that a
user-rejection-classified failure of the bridge step resets the status to
`idle` while leaving the caught error message stored. -/
theorem c3_error_and_hash_discipline :
    (∀ (env : ExecEnv) (st : StoreState), st.transactionError = none →
      ((handleExecuteScreen env st).transactionError ≠ none →
        (handleExecuteScreen env st).transactionStatus = TxStatus.error ∨
        ((handleExecuteScreen env st).transactionStatus = TxStatus.idle ∧
         ∃ e, (executeBridge env.route env.bridgeEnv st).result = Except.error e ∧
              isUserRejection e = true)) ∧
      ((handleExecuteScreen env st).transactionHash ≠ st.transactionHash →
        ∃ h, env.bridgeEnv.sendOutcome = Except.ok h ∧
             (handleExecuteScreen env st).transactionHash = some h)) ∧
    (∀ (env : ApproveEnv) (st : StoreState),
      (handleApproveScreen env st).transactionError = st.transactionError ∧
      ((handleApproveScreen env st).approvalHash ≠ st.approvalHash →
        ∃ h, env.walletOutcome = WalletOutcome.ok h ∧
             (handleApproveScreen env st).approvalHash = some h)) := by
  constructor
  · intro env st herr
    rcases handleExecuteScreen_cases env st with hred | hred | hred <;> rw [hred]
    · exact ⟨fun hne => absurd herr hne,
             fun hne => absurd (rfl : st.transactionHash = st.transactionHash) hne⟩
    · have h1 : (setTransactionStatus TxStatus.error st).transactionError = none := by
        simp [setTransactionStatus, herr]
      have h2 : (setTransactionStatus TxStatus.error st).transactionHash =
          st.transactionHash := by
        simp [setTransactionStatus]
      exact ⟨fun hne => absurd h1 hne, fun hne => absurd h2 hne⟩
    · rcases executeBridge_spec env.route env.bridgeEnv st with
        ⟨h, hso, heq⟩ | ⟨e, sr, heq⟩
      · constructor
        · intro hne
          exfalso
          apply hne
          simp [executeStep, heq, setTransactionStatus, setTransactionHash,
            setTransactionError]
        · intro _
          refine ⟨h, hso, ?_⟩
          simp [executeStep, heq, setTransactionStatus, setTransactionHash,
            setTransactionError]
      · constructor
        · intro _
          by_cases hrej : isUserRejection e = true
          · refine Or.inr ⟨?_, e, by simp [heq, bridgeFail], hrej⟩
            simp [executeStep, heq, hrej, bridgeFail, setTransactionStatus]
          · left
            rw [Bool.not_eq_true] at hrej
            simp only [executeStep, heq, bridgeFail]
            simp only [hrej]
            rw [if_neg (show ¬(false = true) by decide)]
            split <;> simp [setTransactionStatus]
        · intro hne
          exfalso
          apply hne
          simp only [executeStep, heq, bridgeFail]
          split <;>
            simp [setTransactionStatus, setTransactionError, setTransactionHash]
  · intro env st
    rcases handleApproveScreen_cases env st with hred | hred | hred <;> rw [hred]
    · exact ⟨rfl, fun hne => absurd (rfl : st.approvalHash = st.approvalHash) hne⟩
    · have h1 : (setTransactionStatus TxStatus.error st).transactionError =
          st.transactionError := by
        simp [setTransactionStatus]
      have h2 : (setTransactionStatus TxStatus.error st).approvalHash =
          st.approvalHash := by
        simp [setTransactionStatus]
      exact ⟨h1, fun hne => absurd h2 hne⟩
    · rcases approveStep_spec env st with ⟨h, hwo, heq⟩ | ⟨s0, hs0, heq | heq⟩
      · constructor
        · simp [heq, setTransactionStatus, setApprovalHash]
        · intro _
          refine ⟨h, hwo, ?_⟩
          simp [heq, setTransactionStatus, setApprovalHash]
      all_goals
        rcases hs0 with hs0 | hs0 <;> subst hs0 <;>
          exact ⟨by simp [heq, setTransactionStatus],
                 fun hne => absurd (by simp [heq, setTransactionStatus]) hne⟩

/-- A concrete `handleExecute` environment whose wallet submission is
rejected by the user. -/
def execEnvRejected : ExecEnv :=
  ⟨true, true, 8453, 8453, Except.ok (), sampleSymbRoute, benvRejected⟩

/-- Witness for C3 (amended): on the concrete user-rejected execution the
exception case of the invariant is realised. -/
theorem c3_error_and_hash_discipline_witness :
    (handleExecuteScreen execEnvRejected initialStore).transactionStatus = TxStatus.error ∨
    ((handleExecuteScreen execEnvRejected initialStore).transactionStatus = TxStatus.idle ∧
     ∃ e, (executeBridge execEnvRejected.route execEnvRejected.bridgeEnv
            initialStore).result = Except.error e ∧ isUserRejection e = true) :=
  (c3_error_and_hash_discipline.1 execEnvRejected initialStore rfl).1 (by decide)

/-- Sheet inputs on Base with ample balances and a valid spender while the
balance read is still loading. -/
def loadingSheetInput : SheetInput :=
  ⟨8453, 8453, 1000000000, 1000000000000000000, 500000000,
   some "0x41Ae964d0F61Bb5F5e253141A462aD6F3b625B92", true⟩

/-- C5 counterexample: the bottom sheet's gate passes while the balance read
is still loading, so it is not the spec's conjunction — the spec's gate
(which includes the not-currently-loading conjunct) is false on the same
input. -/
theorem c5_counterexample :
    sheetPreflightPassed loadingSheetInput = true ∧
    sheetSpecGate loadingSheetInput = false ∧
    loadingSheetInput.isLoadingBalance = true := by
  decide

/-- C5 (amended): in `TransactionScreen` the preflight gate is exactly the
spec's conjunction (correct network, sufficient balance, sufficient gas,
valid route with valid spender, not loading) and neither the approval nor the
execution control is reachable while it is false (the execution control
additionally requires status `idle`); in `RouteDetailsBottomSheet` the gate
comprises only balance, gas, network and valid spender — it omits the
not-currently-loading conjunct — and the sheet's action button triggers
nothing while that gate is false. -/
theorem c5_preflight_gate :
    (∀ i : ScreenInput, preflightPassed i = screenSpecGate i) ∧
    (∀ (i : ScreenInput) (na ia : Bool),
      approvalControlShown i na ia = true → preflightPassed i = true) ∧
    (∀ (i : ScreenInput) (na ia : Bool) (s : TxStatus),
      executeControlShown i na ia s = true →
        preflightPassed i = true ∧ s = TxStatus.idle) ∧
    (∀ i : SheetInput, sheetPreflightPassed i =
      (sheetHasSufficientUSDC i && sheetHasSufficientGas i &&
       sheetIsCorrectNetwork i && sheetHasValidSpender i)) ∧
    (∀ (ha : Bool) (i : SheetInput) (s : SheetStatus) (na ia hc : Bool),
      sheetButtonAction ha i s na ia hc ≠ SheetAction.noneAct →
        sheetPreflightPassed i = true) := by
  refine ⟨?_, ?_, ?_, ?_, ?_⟩
  · intro i
    simp only [preflightPassed, screenSpecGate]
    generalize hasSufficientBalance i = a
    generalize isCorrectNetwork i = b
    generalize i.isLoadingBalance = c
    generalize i.isLoadingGas = d
    generalize hasRouteData i = e
    generalize i.isLoadingRoute = f
    generalize hasEnoughGas i = g
    generalize hasValidSpender i = h
    revert a b c d e f g h
    decide
  · intro i na ia h
    simp only [approvalControlShown, Bool.and_eq_true] at h
    exact h.1.1
  · intro i na ia s h
    simp only [executeControlShown, Bool.and_eq_true, beq_iff_eq] at h
    exact ⟨h.1.1, h.2⟩
  · intro i
    rfl
  · intro ha i s na ia hc hne
    by_cases hpre : sheetPreflightPassed i = true
    · exact hpre
    · exfalso
      apply hne
      rw [Bool.not_eq_true] at hpre
      cases ha <;> simp [sheetButtonAction, hpre]

/-- Witness for C5 (amended) on concrete passing screen inputs. -/
theorem c5_preflight_gate_witness :
    preflightPassed goodScreenInput = screenSpecGate goodScreenInput ∧
    preflightPassed goodScreenInput = true :=
  ⟨c5_preflight_gate.1 goodScreenInput,
   c5_preflight_gate.2.1 goodScreenInput true false (by decide)⟩

/-- A raw provider-style failure message as `sendTransactionAsync` could
throw it. -/
def rawProviderError : String :=
  "Symbiosis API error: insufficient liquidity in pool 0x1234abcd"

/-- A bridge environment whose wallet submission throws the raw provider
message. -/
def benvRawFail : BridgeEnv :=
  ⟨Except.ok (), Except.error ⟨none, "unused"⟩, Except.error ⟨none, rawProviderError⟩⟩

/-- A concrete `handleExecute` environment whose submission throws the raw
provider message. -/
def execEnvRawFail : ExecEnv :=
  ⟨true, true, 8453, 8453, Except.ok (), sampleSymbRoute, benvRawFail⟩

/-- C7: the `executeBridge` catch stores the raw thrown message verbatim in
the user-facing transaction error, and the error banner renders it — it is
not one of the sanitized taxonomy strings, even though `sanitizeErrorMessage`
(which always lands in the taxonomy, proved below) exists for exactly this
purpose and is used only on the quote screen. -/
theorem c7_raw_error_reaches_banner :
    errorBannerText (handleExecuteScreen execEnvRawFail initialStore) =
      some rawProviderError ∧
    rawProviderError ∉ taxonomyMessages ∧
    (∀ e : JsError, sanitizeErrorMessage e ∈ taxonomyMessages) := by
  refine ⟨rfl, by decide, ?_⟩
  intro e
  simp only [sanitizeErrorMessage]
  split_ifs <;> simp [taxonomyMessages]

/-- The chains with a USDC address are exactly the supported set. -/
theorem getUSDCAddress_eq_none (c : Nat) :
    getUSDCAddress c = none ↔ c ∉ supportedChains := by
  simp only [getUSDCAddress, supportedChains, List.mem_cons, List.not_mem_nil]
  split_ifs with h1 h2 h3 h4 <;> simp_all

/-- C8: any quote request whose source or destination chain lies outside the
supported set is refused with a not-supported error before the external
provider is called — for Li.Fi outside the USDC chains 1, 8453, 42161, 10,
for Symbiosis anything other than Base 8453 to TON 607 — and the
not-supported kind is distinct from the provider-failure kind and from the
empty-result no-routes kind. -/
theorem c8_unsupported_rejected_before_provider_call :
    (∀ (fc tc : Nat) (prov : Except String (List LifiRoute)),
      fc ∉ supportedChains ∨ tc ∉ supportedChains →
        (getLiFiQuote fc tc prov).providerCalled = false ∧
        ∃ m, (getLiFiQuote fc tc prov).result =
          Except.error (QuoteError.notSupported m)) ∧
    (∀ (fc tc : Nat) (addr : String) (prov : Except String Unit),
      ¬(fc = 8453 ∧ tc = 607) →
        (getSymbiosisQuote fc tc addr prov).providerCalled = false ∧
        ∃ m, (getSymbiosisQuote fc tc addr prov).result =
          Except.error (QuoteError.notSupported m)) ∧
    (∀ m m' : String, QuoteError.notSupported m ≠ QuoteError.providerError m' ∧
      QuoteError.notSupported m ≠ QuoteError.noRoutes) := by
  refine ⟨?_, ?_, ?_⟩
  · intro fc tc prov hout
    by_cases h607 : tc = 607
    · subst h607
      exact ⟨by simp [getLiFiQuote],
        "TON bridging is coming soon! Li.Fi currently only supports EVM chains. For now, please select an EVM destination chain (Base, Optimism, Arbitrum, or Ethereum).",
        by simp [getLiFiQuote]⟩
    · cases hfc : getUSDCAddress fc with
      | none =>
        exact ⟨by simp [getLiFiQuote, h607, hfc],
          "USDC not supported on source chain " ++ toString fc ++
            ". Supported chains: Base, Optimism, Arbitrum, Ethereum.",
          by simp [getLiFiQuote, h607, hfc]⟩
      | some u =>
        have hin : fc ∈ supportedChains := by
          by_contra hc
          rw [← getUSDCAddress_eq_none] at hc
          rw [hc] at hfc
          exact Option.noConfusion hfc
        have htc : tc ∉ supportedChains := by
          rcases hout with h | h
          · exact absurd hin h
          · exact h
        have htcn : getUSDCAddress tc = none := (getUSDCAddress_eq_none tc).mpr htc
        exact ⟨by simp [getLiFiQuote, h607, hfc, htcn],
          "USDC not supported on destination chain " ++ toString tc ++
            ". Supported chains: Base, Optimism, Arbitrum, Ethereum.",
          by simp [getLiFiQuote, h607, hfc, htcn]⟩
  · intro fc tc addr prov hns
    by_cases h1 : fc = 8453
    · subst h1
      have h2 : tc ≠ 607 := fun h => hns ⟨rfl, h⟩
      exact ⟨by simp [getSymbiosisQuote, h2],
        "Destination chain must be TON (607)", by simp [getSymbiosisQuote, h2]⟩
    · exact ⟨by simp [getSymbiosisQuote, h1],
        "Source chain must be Base (8453) for Symbiosis bridging",
        by simp [getSymbiosisQuote, h1]⟩
  · intro m m'
    exact ⟨by simp, by simp⟩

/-- Witness for C8: Polygon (137) to TON is refused by Li.Fi without a
provider call; Ethereum to TON is refused by Symbiosis without a provider
call. -/
theorem c8_unsupported_rejected_before_provider_call_witness :
    (getLiFiQuote 137 607 (Except.ok [])).providerCalled = false ∧
    (getSymbiosisQuote 1 607 "EQabc" (Except.ok ())).providerCalled = false :=
  ⟨(c8_unsupported_rejected_before_provider_call.1 137 607 (Except.ok [])
      (Or.inl (by decide))).1,
   (c8_unsupported_rejected_before_provider_call.2.1 1 607 "EQabc" (Except.ok ())
      (by decide)).1⟩

/-- C9 counterexample: `executeBridge` issues the wallet network-switch
request unconditionally — it never consults the wallet's active chain — so in
particular a switch request is issued even when the wallet is already on the
route's required source chain. -/
theorem c9_counterexample :
    (executeBridge sampleSymbRoute benvOk initialStore).switchRequested = true :=
  rfl

/-- C9 (amended): the screen-level network guards are a true no-op when the
active chain already equals the required chain — no switch request, the store
untouched, the step proceeds; `executeBridge`, by contrast, always issues a
switch request but swallows its outcome, so the switch step never affects the
orchestration state there either. -/
theorem c9_switch_step_idempotent :
    (∀ (c : Nat) (o : Except JsError Unit) (st : StoreState),
      networkGuard c c o st = ⟨false, true, st⟩) ∧
    (∀ (route : Route) (o o' : Except JsError Unit) (lr : Except JsError LifiRoute)
        (so : Except JsError String) (st : StoreState),
      executeBridge route ⟨o, lr, so⟩ st = executeBridge route ⟨o', lr, so⟩ st ∧
      (executeBridge route ⟨o, lr, so⟩ st).switchRequested = true) := by
  constructor
  · intro c o st
    simp [networkGuard]
  · intro route o o' lr so st
    refine ⟨rfl, ?_⟩
    rcases executeBridge_spec route ⟨o, lr, so⟩ st with ⟨h, _, heq⟩ | ⟨e, sr, heq⟩ <;>
      simp [heq, bridgeFail]

end OpenRemit
